import Mathlib

/-!
Verification of the spectral-axis conversion core of `spectral_cube`
(`spectral_cube/spectral_axis.py`).

The embedding below mirrors the Python source.  Conventions:

* A FITS ctype string is modelled as a `List Char` (Python string indexing
  `s[i]` becomes `s[i]?`, slicing `s[:4]` becomes `s.take 4`).
* Spectral units are restricted to the SI representatives used throughout the
  source (`u.Hz`, `u.m`, `u.m/u.s`); a quantity is a real value paired with
  its unit.  `Quantity.to(target, equivalencies)` calls are modelled by
  dedicated conversion functions (`to_spectral`, `to_spectral_doppler`,
  `plain_to`) implementing astropy's `u.spectral()` and `u.doppler_*`
  equivalencies on those units.
* Python exceptions (`ValueError`, `KeyError`, `IndexError`, ...) are
  modelled with `Except String`.
* A WCS object is modelled by the fields the source reads and writes for the
  spectral axis, plus an opaque `other` component standing for all the other
  axes and metadata.
-/

/-- Doppler conventions (astropy `u.doppler_radio` / `u.doppler_optical` /
`u.doppler_relativistic`). -/
inductive VConv
  | radio
  | optical
  | relativistic
  deriving DecidableEq

/-- The physical-type taxonomy used by the source (values of
`CTYPE_TO_PHYSICALTYPE` / `parse_phys_type`). -/
inductive PhysType
  | length
  | frequency
  | speed
  | airWavelength
  deriving DecidableEq

/-- The SI spectral units appearing in the source (`WCS_UNIT_DICT` /
`PHYS_UNIT_DICT` values: `u.Hz`, `u.m`, `u.m/u.s`). -/
inductive SpecUnit
  | Hz
  | m
  | m_per_s
  deriving DecidableEq

/-- Token passed as `velocity_convention`: either one of the astropy doppler
equivalency objects or a string alias. -/
inductive VcToken
  | conv (c : VConv)
  | str (s : List Char)

/-- Source `parse_phys_type(unit)`: the (normalised) astropy physical type of
a unit; `speed/velocity` is normalised to `speed`. -/
def parse_phys_type : SpecUnit → PhysType
  | .Hz => .frequency
  | .m => .length
  | .m_per_s => .speed

/-- Source `_parse_velocity_convention(vc)` restricted to string tokens
(including 4-char ctype prefixes and single characters). -/
def parse_velocity_convention (vc : List Char) : Option VConv :=
  if vc = "radio".data ∨ vc = "RADIO".data ∨ vc = "VRAD".data ∨
     vc = "F".data ∨ vc = "FREQ".data then some .radio
  else if vc = "optical".data ∨ vc = "OPTICAL".data ∨ vc = "VOPT".data ∨
     vc = "W".data ∨ vc = "WAVE".data then some .optical
  else if vc = "relativistic".data ∨ vc = "RELATIVE".data ∨ vc = "VREL".data ∨
     vc = "speed".data ∨ vc = "V".data ∨ vc = "VELO".data then some .relativistic
  else none

/-- Source `_parse_velocity_convention(vc)` on an arbitrary token: an astropy
doppler object is a member of the tuple for its own convention. -/
def parse_velocity_convention_token : VcToken → Option VConv
  | .conv c => some c
  | .str s => parse_velocity_convention s

/-- Source dictionary `LINEAR_CTYPES`. -/
def LINEAR_CTYPES : VConv → List Char
  | .optical => "VOPT".data
  | .radio => "VRAD".data
  | .relativistic => "VELO".data

/-- Source dictionary `LINEAR_CTYPE_CHARS`. -/
def LINEAR_CTYPE_CHARS : VConv → Char
  | .optical => 'W'
  | .radio => 'F'
  | .relativistic => 'V'

/-- Source dictionary `ALL_CTYPES` restricted to the string-valued entries
(`'frequency'` and `'length'`; the `'speed'` entry maps to a dict and makes
any string use of it fail, hence `none`). -/
def ALL_CTYPES_typ : PhysType → Option (List Char)
  | .frequency => some "FREQ".data
  | .length => some "WAVE".data
  | _ => none

/-- Source dictionary `CTYPE_TO_PHYSICALTYPE` (after being updated with
`CTYPE_CHAR_TO_PHYSICALTYPE`). -/
def CTYPE_TO_PHYSICALTYPE (s : List Char) : Option PhysType :=
  if s = "WAVE".data then some .length
  else if s = "AIR".data then some .airWavelength
  else if s = "AWAV".data then some .airWavelength
  else if s = "FREQ".data then some .frequency
  else if s = "VELO".data then some .speed
  else if s = "VRAD".data then some .speed
  else if s = "VOPT".data then some .speed
  else if s = "W".data then some .length
  else if s = "A".data then some .airWavelength
  else if s = "F".data then some .frequency
  else if s = "V".data then some .speed
  else none

/-- Source dictionary `PHYSICAL_TYPE_TO_CTYPE` (inverse of
`CTYPE_CHAR_TO_PHYSICALTYPE`). -/
def PHYSICAL_TYPE_TO_CTYPE : PhysType → Char
  | .length => 'W'
  | .airWavelength => 'A'
  | .frequency => 'F'
  | .speed => 'V'

/-- Source dictionary `PHYSICAL_TYPE_TO_CHAR` (no entry for air
wavelength). -/
def PHYSICAL_TYPE_TO_CHAR : PhysType → Option Char
  | .speed => some 'V'
  | .frequency => some 'F'
  | .length => some 'W'
  | .airWavelength => none

/-- Source dictionary `PHYS_UNIT_DICT`.  There is no `'air wavelength'`
entry in the source; `cdelt_derivative` never looks that key up, so the
value returned for it here is arbitrary. -/
def PHYS_UNIT_DICT : PhysType → SpecUnit
  | .length => .m
  | .frequency => .Hz
  | .speed => .m_per_s
  | .airWavelength => .m

/-- Source dictionary `LINEAR_CUNIT_DICT` (after being updated with
`WCS_UNIT_DICT`). -/
def LINEAR_CUNIT_DICT (s : List Char) : Option SpecUnit :=
  if s = "VRAD".data then some .Hz
  else if s = "VOPT".data then some .m
  else if s = "FREQ".data then some .Hz
  else if s = "WAVE".data then some .m
  else if s = "VELO".data then some .m_per_s
  else if s = "AWAV".data then some .m
  else if s = "F".data then some .Hz
  else if s = "W".data then some .m
  else if s = "V".data then some .m_per_s
  else none

/-- Source `determine_vconv_from_ctype(ctype)`: for fewer than 5 characters
the whole string is parsed as a convention token; for exactly 8 characters
the last character is parsed; any other length raises `ValueError`. -/
def determine_vconv_from_ctype (ctype : List Char) : Except String (Option VConv) :=
  if ctype.length < 5 then Except.ok (parse_velocity_convention ctype)
  else if ctype.length = 8 then
    match ctype[7]? with
    | some ch => Except.ok (parse_velocity_convention [ch])
    | none => Except.error "IndexError"
  else Except.error "A valid ctype must either have 4 or 8 characters."

/-- Source `determine_ctype_from_vconv(ctype, unit, velocity_convention)`. -/
def determine_ctype_from_vconv (ctype : List Char) (unit : SpecUnit)
    (velocity_convention : Option VcToken) : Except String (List Char) :=
  let physcharE : Except String Char :=
    if ctype.length > 4 then
      match ctype[5]? with
      | some ch => Except.ok ch
      | none => Except.error "IndexError: ctype"
    else
      match LINEAR_CUNIT_DICT ctype with
      | some lin_cunit =>
        match PHYSICAL_TYPE_TO_CHAR (parse_phys_type lin_cunit) with
        | some ch => Except.ok ch
        | none => Except.error "KeyError: PHYSICAL_TYPE_TO_CHAR"
      | none => Except.error "KeyError: LINEAR_CUNIT_DICT"
  match physcharE with
  | Except.error e => Except.error e
  | Except.ok in_physchar =>
    if parse_phys_type unit = PhysType.speed then
      match velocity_convention with
      | none =>
        match ctype[0]? with
        | none => Except.error "IndexError: ctype"
        | some c0 =>
          if c0 = 'V' then Except.ok ctype
          else Except.error "A velocity convention must be specified"
      | some vc =>
        let vcin := parse_velocity_convention (ctype.take 4)
        match parse_velocity_convention_token vc with
        | none => Except.error "KeyError: LINEAR_CTYPES"
        | some vcout =>
          if vcin = some vcout then Except.ok (LINEAR_CTYPES vcout)
          else Except.ok (LINEAR_CTYPES vcout ++ ['-', in_physchar, '2', LINEAR_CTYPE_CHARS vcout])
    else
      match CTYPE_TO_PHYSICALTYPE [in_physchar] with
      | none => Except.error "KeyError: CTYPE_TO_PHYSICALTYPE"
      | some in_phystype =>
        if in_phystype = parse_phys_type unit then
          match ALL_CTYPES_typ (parse_phys_type unit) with
          | some s => Except.ok s
          | none => Except.error "KeyError: ALL_CTYPES"
        else
          match ALL_CTYPES_typ (parse_phys_type unit) with
          | some root =>
            Except.ok (root ++ ['-', in_physchar, '2', PHYSICAL_TYPE_TO_CTYPE (parse_phys_type unit)])
          | none => Except.error "KeyError: ALL_CTYPES"

noncomputable section

open scoped Classical

/-- The speed of light `constants.c` in SI units (m/s, exact). -/
def cval : ℝ := 299792458

/-- An astropy `Quantity` restricted to the SI spectral units: a real value
together with its unit. -/
structure Quantity where
  val : ℝ
  u : SpecUnit

/-- The WCS fields the source reads and writes: spectral-axis unit, ctype,
reference value (`crval`), effective increment (`pixel_scale_matrix`
diagonal / `cdelt`), the stored rest frequency and rest wavelength, and an
opaque component `other` standing for every other axis and all other
metadata. -/
structure Wcs (α : Type) where
  spec_cunit : SpecUnit
  spec_ctype : List Char
  spec_crval : ℝ
  spec_cdelt : ℝ
  restfrq : ℝ
  restwav : ℝ
  other : α

/-- Source `get_rest_value_from_wcs(mywcs)`: Python float truthiness means a
stored value of exactly 0 is treated as absent. -/
def get_rest_value_from_wcs {α : Type} (w : Wcs α) : Option Quantity :=
  if w.restfrq ≠ 0 then some ⟨w.restfrq, .Hz⟩
  else if w.restwav ≠ 0 then some ⟨w.restwav, .m⟩
  else none

/-- Rest frequency (Hz) extracted from a rest quantity, as astropy's doppler
equivalencies do via `u.spectral()`; only called with a frequency or length
rest. -/
def restfrq_of (rest : Quantity) : ℝ :=
  match rest.u with
  | .Hz => rest.val
  | .m => cval / rest.val
  | .m_per_s => 0

/-- Rest wavelength (m) extracted from a rest quantity. -/
def restwav_of (rest : Quantity) : ℝ :=
  match rest.u with
  | .Hz => cval / rest.val
  | .m => rest.val
  | .m_per_s => 0

/-- astropy doppler equivalencies, frequency → velocity direction. -/
def dopplerToVelFreq : VConv → ℝ → ℝ → ℝ
  | .radio, nu0, x => (nu0 - x) / nu0 * cval
  | .optical, nu0, x => cval * (nu0 - x) / x
  | .relativistic, nu0, x => (nu0 ^ 2 - x ^ 2) / (nu0 ^ 2 + x ^ 2) * cval

/-- astropy doppler equivalencies, velocity → frequency direction. -/
def dopplerFromVelFreq : VConv → ℝ → ℝ → ℝ
  | .radio, nu0, v => nu0 * (1 - v / cval)
  | .optical, nu0, v => nu0 / (1 + v / cval)
  | .relativistic, nu0, v => nu0 * Real.sqrt ((cval - v) / (cval + v))

/-- astropy doppler equivalencies, wavelength → velocity direction. -/
def dopplerToVelWav : VConv → ℝ → ℝ → ℝ
  | .radio, w0, x => (x - w0) / x * cval
  | .optical, w0, x => cval * (x - w0) / w0
  | .relativistic, w0, x => (x ^ 2 - w0 ^ 2) / (w0 ^ 2 + x ^ 2) * cval

/-- astropy doppler equivalencies, velocity → wavelength direction. -/
def dopplerFromVelWav : VConv → ℝ → ℝ → ℝ
  | .radio, w0, v => w0 / (1 - v / cval)
  | .optical, w0, v => w0 * (1 + v / cval)
  | .relativistic, w0, v => w0 * Real.sqrt ((cval + v) / (cval - v))

/-- `q.to(target, u.spectral())`: identity on the same unit, the exact
relation `x ↦ c / x` between Hz and m, and failure (astropy
`UnitConversionError`) for any pair involving a velocity. -/
def to_spectral (q : Quantity) (t : SpecUnit) : Except String Quantity :=
  if q.u = t then Except.ok q
  else
    match q.u, t with
    | .Hz, .m => Except.ok ⟨cval / q.val, t⟩
    | .m, .Hz => Except.ok ⟨cval / q.val, t⟩
    | _, _ => Except.error "UnitConversionError"

/-- `q.to(target, u.spectral() + conv(rest))` (order of the two equivalency
lists does not matter on these units: Hz↔m is only served by `u.spectral()`,
any velocity pair only by the doppler equivalency). -/
def to_spectral_doppler (conv : VConv) (rest : Quantity) (q : Quantity) (t : SpecUnit) :
    Except String Quantity :=
  if rest.u = .m_per_s then Except.error "UnitsError: rest value must be spectral"
  else if q.u = t then Except.ok q
  else
    match q.u, t with
    | .Hz, .m => Except.ok ⟨cval / q.val, t⟩
    | .m, .Hz => Except.ok ⟨cval / q.val, t⟩
    | .Hz, .m_per_s => Except.ok ⟨dopplerToVelFreq conv (restfrq_of rest) q.val, t⟩
    | .m_per_s, .Hz => Except.ok ⟨dopplerFromVelFreq conv (restfrq_of rest) q.val, t⟩
    | .m, .m_per_s => Except.ok ⟨dopplerToVelWav conv (restwav_of rest) q.val, t⟩
    | .m_per_s, .m => Except.ok ⟨dopplerFromVelWav conv (restwav_of rest) q.val, t⟩
    | _, _ => Except.ok q

/-- `q.to(target)` with no equivalencies: on these (dimensionally distinct)
units only the identity conversion succeeds. -/
def plain_to (q : Quantity) (t : SpecUnit) : Except String Quantity :=
  if q.u = t then Except.ok q else Except.error "UnitConversionError"

/-- Source `air_to_vac(wavelength)` (Griesen 2006 eqn 65); the input is in
metres, `wlum` is the wavelength in micrometres. -/
def air_to_vac (wavelength : ℝ) : ℝ :=
  let wlum := wavelength * 1e6
  (1 + 1e-6 * (287.6155 + 1.62887 / wlum ^ 2 + 0.01360 / wlum ^ 4)) * wavelength

/-- Source `vac_to_air(wavelength)` (Griesen 2006 eqn 67). -/
def vac_to_air (wavelength : ℝ) : ℝ :=
  let wlum := wavelength * 1e6
  wavelength / (1 + 1e-6 * (287.6155 + 1.62887 / wlum ^ 2 + 0.01360 / wlum ^ 4))

/-- Source `air_to_vac_deriv(wavelength)` (Griesen 2006 eqn 66). -/
def air_to_vac_deriv (wavelength : ℝ) : ℝ :=
  let wlum := wavelength * 1e6
  1 + 1e-6 * (287.6155 - 1.62887 / wlum ^ 2 - 0.04080 / wlum ^ 4)

/-- Source `cdelt_derivative(crval, cdelt, intype, outtype, linear, rest)`.
`rest = none` models Python `rest=None` (whose use raises); `**0.5` is
`Real.sqrt`. -/
def cdelt_derivative (crval cdelt : Quantity) (intype outtype : PhysType)
    (rest : Option Quantity) (linear : Bool) : Except String Quantity :=
  if intype = outtype then Except.ok cdelt
  else if (intype = .length ∧ outtype = .frequency) ∨
          (intype = .frequency ∧ outtype = .length) then
    Except.ok ⟨-cval / crval.val ^ 2 * cdelt.val, PHYS_UNIT_DICT outtype⟩
  else if (outtype = .frequency ∨ outtype = .length) ∧ intype = .speed then
    match rest with
    | none => Except.error "AttributeError: rest value is required"
    | some r =>
      match to_spectral r (PHYS_UNIT_DICT outtype) with
      | Except.error e => Except.error e
      | Except.ok r2 =>
        let numer := if linear then cdelt.val * r2.val else cdelt.val * cval * r2.val
        let denom := if linear then cval
                     else (cval + crval.val) * Real.sqrt (cval ^ 2 - crval.val ^ 2)
        if outtype = .frequency then Except.ok ⟨-(numer / denom), PHYS_UNIT_DICT outtype⟩
        else Except.ok ⟨numer / denom, PHYS_UNIT_DICT outtype⟩
  else if outtype = .speed ∧ (intype = .frequency ∨ intype = .length) then
    match rest with
    | none => Except.error "AttributeError: rest value is required"
    | some r =>
      if linear then
        match to_spectral r (PHYS_UNIT_DICT intype) with
        | Except.error e => Except.error e
        | Except.ok r2 =>
          let numer := cdelt.val * cval
          let denom := r2.val
          if intype = .frequency then Except.ok ⟨-(numer / denom), PHYS_UNIT_DICT outtype⟩
          else Except.ok ⟨numer / denom, PHYS_UNIT_DICT outtype⟩
      else
        match to_spectral r crval.u with
        | Except.error e => Except.error e
        | Except.ok r2 =>
          let numer := 4 * cval * crval.val * r2.val ^ 2 * cdelt.val
          let denom := (crval.val ^ 2 + r2.val ^ 2) ^ 2
          if intype = .frequency then Except.ok ⟨-(numer / denom), PHYS_UNIT_DICT outtype⟩
          else Except.ok ⟨numer / denom, PHYS_UNIT_DICT outtype⟩
  else if intype = .airWavelength then
    Except.error "Air wavelength should be converted to vacuum earlier."
  else if outtype = .airWavelength then
    Except.error "Conversion to air wavelength not supported."
  else Except.error "Invalid in/out frames"

/-- The reassignment `rest_value = wcs_rv` performed when no rest value is
supplied to a conversion whose output is a speed (source lines 246-247). -/
def orElseRest (r0 wrv : Option Quantity) : Option Quantity :=
  match r0 with
  | some r => some r
  | none => wrv

/-- Resolution of `rest_value` / `ref_value` in `convert_spectral_axis`
(source lines 244-260).  Returns the possibly reassigned `rest_value`
together with `ref_value`. -/
def resolveRest {α : Type} (w : Wcs α) (outunit : SpecUnit) (rest_value0 : Option Quantity) :
    Except String (Option Quantity × Option Quantity) :=
  if parse_phys_type outunit = PhysType.speed then
    match orElseRest rest_value0 (get_rest_value_from_wcs w) with
    | none => Except.error "If converting from wavelength/frequency to speed, a reference wavelength/frequency is required."
    | some rv =>
      match to_spectral rv SpecUnit.Hz with
      | Except.ok rq => Except.ok (some rv, some rq)
      | Except.error e => Except.error e
  else if parse_phys_type w.spec_cunit = PhysType.speed then
    match rest_value0 with
    | some rv => Except.ok (some rv, some rv)
    | none =>
      match get_rest_value_from_wcs w with
      | some rv => Except.ok (none, some rv)
      | none => Except.error "If converting from speed to wavelength/frequency, a reference wavelength/frequency is required."
  else Except.ok (rest_value0, none)

/-- The three-step conversion of the reference value and increment
(source lines 263-342), given the already-resolved `ref_value`.  Returns
`(crval_out, cdelt_out)`. -/
def core_main {α : Type} (w : Wcs α) (outunit : SpecUnit) (out_ctype : List Char)
    (ref_value : Option Quantity) : Except String (Quantity × Quantity) := do
  let inunit := w.spec_cunit
  let in_spec_ctype0 := w.spec_ctype
  let lin_ctype ←
    if in_spec_ctype0.length > 4 then
      match in_spec_ctype0[7]? with
      | some ch => Except.ok [ch]
      | none => Except.error "IndexError: in ctype"
    else Except.ok (in_spec_ctype0.take 4)
  let lin_cunit := (LINEAR_CUNIT_DICT lin_ctype).getD inunit
  let in_vcequiv := parse_velocity_convention (in_spec_ctype0.take 4)
  let out_ctype_conv ←
    if out_ctype.length > 4 then
      match out_ctype[7]? with
      | some ch => Except.ok [ch]
      | none => Except.error "IndexError: out ctype"
    else Except.ok (out_ctype.take 4)
  let outPhys ←
    match CTYPE_TO_PHYSICALTYPE out_ctype_conv with
    | some p => Except.ok p
    | none => Except.error "KeyError: CTYPE_TO_PHYSICALTYPE"
  if outPhys = PhysType.airWavelength then
    Except.error "Conversion to air wavelength is not supported."
  else do
  let out_lin_cunit := (LINEAR_CUNIT_DICT out_ctype_conv).getD outunit
  let out_vcequiv := parse_velocity_convention out_ctype_conv
  let crval_in0 : Quantity := ⟨w.spec_crval, inunit⟩
  let cdelt_in0 : Quantity := ⟨w.spec_cdelt, inunit⟩
  let crval_in := if in_spec_ctype0 = "AWAV".data then
      (⟨air_to_vac crval_in0.val, inunit⟩ : Quantity) else crval_in0
  let cdelt_in := if in_spec_ctype0 = "AWAV".data then
      (⟨air_to_vac_deriv crval_in0.val * cdelt_in0.val, inunit⟩ : Quantity) else cdelt_in0
  let in_spec_ctype := if in_spec_ctype0 = "AWAV".data then "WAVE".data else in_spec_ctype0
  -- 1. Convert input to input, linear
  let crval_lin1 ←
    match in_vcequiv, ref_value with
    | some cv, some ref => to_spectral_doppler cv ref crval_in lin_cunit
    | _, _ => to_spectral crval_in lin_cunit
  let intype1 ←
    match CTYPE_TO_PHYSICALTYPE (in_spec_ctype.take 4) with
    | some p => Except.ok p
    | none => Except.error "KeyError: CTYPE_TO_PHYSICALTYPE"
  let cdelt_lin1 ← cdelt_derivative crval_in cdelt_in intype1 (parse_phys_type lin_cunit)
      ref_value true
  -- 2. Convert input, linear to output, linear
  let crval_lin2 ←
    match ref_value with
    | none => to_spectral crval_lin1 out_lin_cunit
    | some ref => to_spectral_doppler VConv.relativistic ref crval_lin1 out_lin_cunit
  let linear_middle := decide (in_vcequiv = out_vcequiv)
  let cdelt_lin2 ← cdelt_derivative crval_lin1 cdelt_lin1 (parse_phys_type lin_cunit) outPhys
      ref_value linear_middle
  -- 3. Convert output, linear to output
  match out_vcequiv, ref_value with
  | some cv, some ref => do
    let crval_out ← to_spectral_doppler cv ref crval_lin2 outunit
    let cdelt_out0 ← cdelt_derivative crval_lin2 cdelt_lin2 outPhys (parse_phys_type outunit)
        ref_value true
    let cdelt_out ← plain_to cdelt_out0 outunit
    Except.ok (crval_out, cdelt_out)
  | _, _ => do
    let crval_out ← to_spectral crval_lin2 outunit
    let cdelt_out ← to_spectral cdelt_lin2 outunit
    Except.ok (crval_out, cdelt_out)

/-- Commit of the (possibly reassigned) rest value into the new WCS
(source lines 364-370). -/
def commitRest {α : Type} (w1 : Wcs α) (rest_value : Option Quantity) :
    Except String (Wcs α) :=
  match rest_value with
  | none => Except.ok w1
  | some rv =>
    if parse_phys_type rv.u = PhysType.frequency then Except.ok { w1 with restfrq := rv.val }
    else if parse_phys_type rv.u = PhysType.length then Except.ok { w1 with restwav := rv.val }
    else Except.error "Rest Value was specified, but not in frequency or length units"

/-- The body of `convert_spectral_axis` from source line 241 on: rest-value
resolution, three-step conversion, consistency checks, and commit into a
deep copy of the input WCS. -/
def convert_core {α : Type} (w : Wcs α) (outunit : SpecUnit) (out_ctype : List Char)
    (rest_value0 : Option Quantity) : Except String (Wcs α) := do
  let rr ← resolveRest w outunit rest_value0
  let co ← core_main w outunit out_ctype rr.2
  if co.1.u ≠ co.2.u then
    Except.error "Conversion failed: the units of cdelt and crval do not match."
  else if co.2.val = 0 then
    Except.error "Conversion failed: the output CDELT would be 0."
  else
    commitRest
      { w with
          spec_cdelt := co.2.val
          spec_cunit := co.2.u
          spec_crval := co.1.val
          spec_ctype := out_ctype } rr.1

/-- Source `convert_spectral_axis(mywcs, outunit, out_ctype, rest_value)`.
The speed→speed-with-rest case first converts (recursively, in the source)
to the rest value's own representation; inside that recursive call the
output unit is never a speed, so the recursion immediately reaches the main
body, modelled here by `convert_core`.  The speed→speed case without a rest
value returns a deep copy of the input unchanged. -/
def convert_spectral_axis {α : Type} (w : Wcs α) (outunit : SpecUnit) (out_ctype : List Char)
    (rest_value : Option Quantity) : Except String (Wcs α) :=
  if parse_phys_type w.spec_cunit = PhysType.speed ∧ parse_phys_type outunit = PhysType.speed then
    match get_rest_value_from_wcs w with
    | some rv =>
      match ALL_CTYPES_typ (parse_phys_type rv.u) with
      | some ct =>
        convert_core w rv.u ct (some rv) >>= fun w2 =>
          convert_core w2 outunit out_ctype rest_value
      | none => Except.error "TypeError: ALL_CTYPES value is not a string"
    | none => Except.ok w
  else convert_core w outunit out_ctype rest_value

end

section Lemmas

theorem cval_pos : 0 < cval := by norm_num [cval]

theorem cval_ne_zero : cval ≠ 0 := ne_of_gt cval_pos

/-- `commitRest` only ever copies its input and possibly overwrites one rest
field: all non-rest fields are preserved. -/
theorem commitRest_ok_fields {α : Type} {w1 : Wcs α} {r : Option Quantity} {w' : Wcs α}
    (h : commitRest w1 r = Except.ok w') :
    w'.spec_cunit = w1.spec_cunit ∧ w'.spec_ctype = w1.spec_ctype ∧
    w'.spec_crval = w1.spec_crval ∧ w'.spec_cdelt = w1.spec_cdelt ∧ w'.other = w1.other := by
  cases r with
  | none =>
    simp only [commitRest] at h
    cases h
    exact ⟨rfl, rfl, rfl, rfl, rfl⟩
  | some rv =>
    simp only [commitRest] at h
    split at h
    · cases h; exact ⟨rfl, rfl, rfl, rfl, rfl⟩
    · split at h
      · cases h; exact ⟨rfl, rfl, rfl, rfl, rfl⟩
      · cases h

/-- `commitRest` writes the rest field matching the committed rest value's
physical type and leaves the other rest field unchanged. -/
theorem commitRest_ok_rest {α : Type} {w1 : Wcs α} {r : Option Quantity} {w' : Wcs α}
    (h : commitRest w1 r = Except.ok w') :
    (w'.restfrq = w1.restfrq ∧ w'.restwav = w1.restwav) ∨
    (∃ rv, r = some rv ∧
      ((parse_phys_type rv.u = PhysType.frequency ∧ w'.restfrq = rv.val ∧
          w'.restwav = w1.restwav) ∨
       (parse_phys_type rv.u = PhysType.length ∧ w'.restwav = rv.val ∧
          w'.restfrq = w1.restfrq))) := by
  cases r with
  | none =>
    simp only [commitRest] at h
    cases h
    exact Or.inl ⟨rfl, rfl⟩
  | some rv =>
    simp only [commitRest] at h
    split at h
    · cases h
      exact Or.inr ⟨rv, rfl, Or.inl ⟨by assumption, rfl, rfl⟩⟩
    · split at h
      · cases h
        exact Or.inr ⟨rv, rfl, Or.inr ⟨by assumption, rfl, rfl⟩⟩
      · cases h

/-- A successful monadic bind on `Except` decomposes into a successful first
step followed by a successful continuation. -/
theorem except_bind_ok {ε α β : Type} {x : Except ε α} {f : α → Except ε β} {b : β}
    (h : x >>= f = Except.ok b) : ∃ a, x = Except.ok a ∧ f a = Except.ok b := by
  cases x with
  | ok a => exact ⟨a, rfl, h⟩
  | error e => exact absurd h (by simp [Bind.bind, Except.bind])

/-- Case analysis on the `orElseRest` reassignment. -/
theorem orElseRest_ok {r0 wrv rv : Option Quantity} (h : orElseRest r0 wrv = rv) :
    r0 = rv ∨ (r0 = none ∧ wrv = rv) := by
  cases r0 with
  | some r => exact Or.inl h
  | none => exact Or.inr ⟨rfl, h⟩

/-- Successful runs of `convert_core` decompose into a successful rest
resolution, a successful three-step conversion with matching units and a
nonzero output increment, and a successful commit. -/
theorem convert_core_ok_spec {α : Type} {w : Wcs α} {o : SpecUnit} {c : List Char}
    {r0 : Option Quantity} {w' : Wcs α} (h : convert_core w o c r0 = Except.ok w') :
    ∃ rr co, resolveRest w o r0 = Except.ok rr ∧ core_main w o c rr.2 = Except.ok co ∧
      co.1.u = co.2.u ∧ co.2.val ≠ 0 ∧
      commitRest
        { w with
            spec_cdelt := co.2.val
            spec_cunit := co.2.u
            spec_crval := co.1.val
            spec_ctype := c } rr.1 = Except.ok w' := by
  unfold convert_core at h
  obtain ⟨rr, hrr, h⟩ := except_bind_ok h
  obtain ⟨co, hco, h⟩ := except_bind_ok h
  refine ⟨rr, co, hrr, hco, ?_⟩
  split at h
  · cases h
  · split at h
    · cases h
    · exact ⟨not_ne_iff.mp (by assumption), by assumption, h⟩

/-- The output increment of a successful `convert_core` run is nonzero. -/
theorem convert_core_ok_cdelt {α : Type} {w : Wcs α} {o : SpecUnit} {c : List Char}
    {r0 : Option Quantity} {w' : Wcs α} (h : convert_core w o c r0 = Except.ok w') :
    w'.spec_cdelt ≠ 0 := by
  obtain ⟨rr, co, -, -, -, hnz, hcommit⟩ := convert_core_ok_spec h
  have hf := commitRest_ok_fields hcommit
  rw [hf.2.2.2.1]
  exact hnz

/-- `convert_core` never touches the non-spectral component of the WCS. -/
theorem convert_core_ok_other {α : Type} {w : Wcs α} {o : SpecUnit} {c : List Char}
    {r0 : Option Quantity} {w' : Wcs α} (h : convert_core w o c r0 = Except.ok w') :
    w'.other = w.other := by
  obtain ⟨rr, co, -, -, -, -, hcommit⟩ := convert_core_ok_spec h
  exact (commitRest_ok_fields hcommit).2.2.2.2

/-- The rest value committed by `convert_core` is either the one supplied in
the call or the one already stored in the WCS. -/
theorem resolveRest_ok_restval {α : Type} {w : Wcs α} {o : SpecUnit}
    {r0 : Option Quantity} {rr : Option Quantity × Option Quantity}
    (h : resolveRest w o r0 = Except.ok rr) :
    rr.1 = r0 ∨ rr.1 = get_rest_value_from_wcs w := by
  unfold resolveRest at h
  split at h
  · split at h
    · cases h
    · rename_i rv heq
      split at h
      · cases h
        rcases orElseRest_ok heq with h1 | ⟨h1, h2⟩
        · exact Or.inl h1.symm
        · exact Or.inr h2.symm
      · cases h
  · split at h
    · split at h
      · cases h
        simp_all
      · split at h
        · cases h
          simp_all
        · cases h
    · cases h
      exact Or.inl rfl

/-- Shape of a stored rest value: it is the stored rest frequency (in Hz) if
that is nonzero, else the stored rest wavelength (in m). -/
theorem get_rest_value_cases {α : Type} {w : Wcs α} {rv : Quantity}
    (h : get_rest_value_from_wcs w = some rv) :
    (rv = ⟨w.restfrq, SpecUnit.Hz⟩ ∧ w.restfrq ≠ 0) ∨
    (rv = ⟨w.restwav, SpecUnit.m⟩ ∧ w.restfrq = 0 ∧ w.restwav ≠ 0) := by
  unfold get_rest_value_from_wcs at h
  split at h
  · cases h; exact Or.inl ⟨rfl, by assumption⟩
  · split at h
    · cases h; exact Or.inr ⟨rfl, not_ne_iff.mp (by assumption), by assumption⟩
    · cases h

end Lemmas

/-- `convert_core` called with the rest value already stored in the WCS
(as the recursive speed→speed normalisation does) preserves both stored
rest fields exactly. -/
theorem convert_core_rest_self {α : Type} {w : Wcs α} {o : SpecUnit} {c : List Char}
    {rv : Quantity} {w2 : Wcs α} (h : convert_core w o c (some rv) = Except.ok w2)
    (hg : get_rest_value_from_wcs w = some rv) :
    w2.restfrq = w.restfrq ∧ w2.restwav = w.restwav := by
  obtain ⟨rr, co, hrr, -, -, -, hcommit⟩ := convert_core_ok_spec h
  have hprov : rr.1 = some rv := by
    rcases resolveRest_ok_restval hrr with h1 | h1
    · exact h1
    · rw [h1, hg]
  rcases commitRest_ok_rest hcommit with ⟨hf, hwv⟩ | ⟨rv', hr', hcase⟩
  · exact ⟨hf, hwv⟩
  · have : rv' = rv := by rw [hprov] at hr'; exact (Option.some.inj hr').symm
    subst this
    rcases get_rest_value_cases hg with ⟨hrv, -⟩ | ⟨hrv, -, -⟩
    · rcases hcase with ⟨-, hfrq, hwv⟩ | ⟨hu, -, -⟩
      · subst hrv
        exact ⟨hfrq, hwv⟩
      · subst hrv
        simp [parse_phys_type] at hu
    · rcases hcase with ⟨hu, -, -⟩ | ⟨-, hwv, hfrq⟩
      · subst hrv
        simp [parse_phys_type] at hu
      · subst hrv
        exact ⟨hfrq, hwv⟩

/-- `convert_core` leaves a zero stored rest wavelength at zero unless a
length-typed rest value is supplied in the call. -/
theorem convert_core_restwav {α : Type} {w : Wcs α} {o : SpecUnit} {c : List Char}
    {r0 : Option Quantity} {w' : Wcs α} (h : convert_core w o c r0 = Except.ok w')
    (h0 : w.restwav = 0)
    (halign : ∀ rv, r0 = some rv → parse_phys_type rv.u ≠ PhysType.length) :
    w'.restwav = 0 := by
  obtain ⟨rr, co, hrr, -, -, -, hcommit⟩ := convert_core_ok_spec h
  rcases commitRest_ok_rest hcommit with ⟨-, hwv⟩ | ⟨rv', hr', hcase⟩
  · rw [hwv]; exact h0
  · rcases hcase with ⟨-, -, hwv⟩ | ⟨hu, hwv, -⟩
    · rw [hwv]; exact h0
    · rcases resolveRest_ok_restval hrr with h1 | h1
      · exact absurd hu (halign rv' (h1 ▸ hr'))
      · have hg : get_rest_value_from_wcs w = some rv' := by rw [← h1, hr']
        rcases get_rest_value_cases hg with ⟨hrv, -⟩ | ⟨hrv, -, -⟩
        · subst hrv; simp [parse_phys_type] at hu
        · subst hrv; rw [hwv]; exact h0

/-- Each `convert_core` run overwrites at most one of the two stored rest
fields. -/
theorem convert_core_rest_one {α : Type} {w : Wcs α} {o : SpecUnit} {c : List Char}
    {r0 : Option Quantity} {w' : Wcs α} (h : convert_core w o c r0 = Except.ok w') :
    w'.restfrq = w.restfrq ∨ w'.restwav = w.restwav := by
  obtain ⟨rr, co, -, -, -, -, hcommit⟩ := convert_core_ok_spec h
  rcases commitRest_ok_rest hcommit with ⟨hf, -⟩ | ⟨rv', -, hcase⟩
  · exact Or.inl hf
  · rcases hcase with ⟨-, -, hwv⟩ | ⟨-, -, hf⟩
    · exact Or.inr hwv
    · exact Or.inl hf

/-- Monadic bind on `Except` applied to a success. -/
theorem except_ok_bind {ε α β : Type} (a : α) (f : α → Except ε β) :
    (Except.ok a >>= f : Except ε β) = f a := rfl

/-- Assembly lemma for evaluating `convert_core` from evaluations of its
stages. -/
theorem convert_core_eval {α : Type} {w : Wcs α} {o : SpecUnit} {c : List Char}
    {r0 rv ref : Option Quantity} {cv cd : Quantity}
    (hrr : resolveRest w o r0 = Except.ok (rv, ref))
    (hmain : core_main w o c ref = Except.ok (cv, cd))
    (huv : cv.u = cd.u) (hnz : cd.val ≠ 0) :
    convert_core w o c r0 =
      commitRest
        { w with
            spec_cdelt := cd.val
            spec_cunit := cd.u
            spec_crval := cv.val
            spec_ctype := c } rv := by
  unfold convert_core
  rw [hrr]
  simp only [except_ok_bind]
  rw [hmain]
  simp only [except_ok_bind]
  rw [if_neg (not_not_intro huv), if_neg hnz]

/-- When input and output are not both speeds, `convert_spectral_axis` is
its main body. -/
theorem convert_wrapper_notspeed {α : Type} {w : Wcs α} {o : SpecUnit} {c : List Char}
    {r : Option Quantity}
    (hns : ¬(parse_phys_type w.spec_cunit = PhysType.speed ∧
             parse_phys_type o = PhysType.speed)) :
    convert_spectral_axis w o c r = convert_core w o c r := by
  unfold convert_spectral_axis
  rw [if_neg hns]

noncomputable section EvalFreqWave

/-- Example frequency axis: 299792458 Hz (1 m wavelength), increment 1 Hz,
no rest value. -/
def wcsFreqEx : Wcs Unit := ⟨.Hz, "FREQ".data, cval, 1, 0, 0, ()⟩

/-- The result of converting `wcsFreqEx` to vacuum wavelength. -/
def wcsWaveOut : Wcs Unit := ⟨.m, "WAVE-F2W".data, 1, -(1 / cval), 0, 0, ()⟩

theorem wcsFreqEx_rest : get_rest_value_from_wcs wcsFreqEx = none := by
  simp [get_rest_value_from_wcs, wcsFreqEx]

theorem wcsFreqEx_resolve : resolveRest wcsFreqEx .m none = Except.ok (none, none) := by
  unfold resolveRest
  simp [wcsFreqEx, parse_phys_type]

theorem wcsFreqEx_main : core_main wcsFreqEx .m "WAVE-F2W".data none =
    Except.ok (⟨cval / cval, .m⟩, ⟨-cval / cval ^ 2 * 1, .m⟩) := rfl

theorem wcsFreqEx_main_values : core_main wcsFreqEx .m "WAVE-F2W".data none =
    Except.ok (⟨1, .m⟩, ⟨-(1 / cval), .m⟩) := by
  rw [wcsFreqEx_main]
  simp only [Except.ok.injEq, Prod.mk.injEq, Quantity.mk.injEq]
  norm_num [cval]

/-- Full evaluation: converting the example frequency axis to wavelength
succeeds, giving reference value 1 m and increment −1/c m. -/
theorem eval_freq_to_wave :
    convert_spectral_axis wcsFreqEx .m "WAVE-F2W".data none = Except.ok wcsWaveOut := by
  rw [convert_wrapper_notspeed (by simp [wcsFreqEx, parse_phys_type])]
  rw [convert_core_eval wcsFreqEx_resolve wcsFreqEx_main_values rfl (by norm_num [cval])]
  rfl

end EvalFreqWave

noncomputable section EvalWaveVelo

/-- Example wavelength axis: reference 2 m, increment 1 m, stored rest
frequency 299792458 Hz (rest wavelength 1 m). -/
def wcsWaveEx : Wcs Unit := ⟨.m, "WAVE".data, 2, 1, cval, 0, ()⟩

/-- Result of converting `wcsWaveEx` to relativistic velocity. -/
def wcsVeloEx : Wcs Unit := ⟨.m_per_s, "VELO-W2V".data, 3 * cval / 5, 8 * cval / 25, cval, 0, ()⟩

/-- Result of converting `wcsVeloEx` back to wavelength: the reference value
round-trips to 2 m, but the increment comes back as 1/4 m instead of 1 m. -/
def wcsWaveBack : Wcs Unit := ⟨.m, "WAVE".data, 2, 1 / 4, cval, 0, ()⟩

theorem wcsWaveEx_rest : get_rest_value_from_wcs wcsWaveEx = some ⟨cval, .Hz⟩ := by
  unfold get_rest_value_from_wcs
  rw [if_pos (show (wcsWaveEx.restfrq ≠ 0) from by norm_num [wcsWaveEx, cval])]
  rfl

theorem wcsWaveEx_resolve : resolveRest wcsWaveEx .m_per_s none =
    Except.ok (some ⟨cval, .Hz⟩, some ⟨cval, .Hz⟩) := by
  unfold resolveRest
  rw [wcsWaveEx_rest]
  rfl

theorem wcsWaveEx_main : core_main wcsWaveEx .m_per_s "VELO-W2V".data (some ⟨cval, .Hz⟩) =
    Except.ok (⟨dopplerToVelWav VConv.relativistic (cval / cval) 2, .m_per_s⟩,
      ⟨4 * cval * 2 * (cval / cval) ^ 2 * 1 / (2 ^ 2 + (cval / cval) ^ 2) ^ 2, .m_per_s⟩) := rfl

theorem wcsWaveEx_main_values : core_main wcsWaveEx .m_per_s "VELO-W2V".data (some ⟨cval, .Hz⟩) =
    Except.ok (⟨3 * cval / 5, .m_per_s⟩, ⟨8 * cval / 25, .m_per_s⟩) := by
  rw [wcsWaveEx_main]
  simp only [Except.ok.injEq, Prod.mk.injEq, Quantity.mk.injEq, dopplerToVelWav]
  norm_num [cval]

/-- Forward leg: wavelength → relativistic velocity. -/
theorem eval_wave_to_velo :
    convert_spectral_axis wcsWaveEx .m_per_s "VELO-W2V".data none = Except.ok wcsVeloEx := by
  rw [convert_wrapper_notspeed (by simp [wcsWaveEx, parse_phys_type])]
  rw [convert_core_eval wcsWaveEx_resolve wcsWaveEx_main_values rfl (by norm_num [cval])]
  rfl

theorem wcsVeloEx_rest : get_rest_value_from_wcs wcsVeloEx = some ⟨cval, .Hz⟩ := by
  unfold get_rest_value_from_wcs
  rw [if_pos (show (wcsVeloEx.restfrq ≠ 0) from by norm_num [wcsVeloEx, cval])]
  rfl

theorem wcsVeloEx_resolve : resolveRest wcsVeloEx .m none =
    Except.ok (none, some ⟨cval, .Hz⟩) := by
  unfold resolveRest
  rw [wcsVeloEx_rest]
  rfl

theorem wcsVeloEx_main : core_main wcsVeloEx .m "WAVE".data (some ⟨cval, .Hz⟩) =
    Except.ok (⟨dopplerFromVelWav VConv.relativistic (cval / cval) (3 * cval / 5), .m⟩,
      ⟨8 * cval / 25 * cval * (cval / cval) /
        ((cval + 3 * cval / 5) * Real.sqrt (cval ^ 2 - (3 * cval / 5) ^ 2)), .m⟩) := rfl

theorem sqrt_ratio_eval : Real.sqrt ((cval + 3 * cval / 5) / (cval - 3 * cval / 5)) = 2 := by
  rw [show (cval + 3 * cval / 5) / (cval - 3 * cval / 5) = (4 : ℝ) from by norm_num [cval]]
  rw [show (4 : ℝ) = 2 ^ 2 from by norm_num]
  exact Real.sqrt_sq (by norm_num)

theorem sqrt_diff_eval : Real.sqrt (cval ^ 2 - (3 * cval / 5) ^ 2) = 4 * cval / 5 := by
  rw [show cval ^ 2 - (3 * cval / 5) ^ 2 = (4 * cval / 5) ^ 2 from by ring]
  exact Real.sqrt_sq (by norm_num [cval])

theorem wcsVeloEx_main_values : core_main wcsVeloEx .m "WAVE".data (some ⟨cval, .Hz⟩) =
    Except.ok (⟨2, .m⟩, ⟨1 / 4, .m⟩) := by
  rw [wcsVeloEx_main]
  simp only [Except.ok.injEq, Prod.mk.injEq, Quantity.mk.injEq, dopplerFromVelWav,
    sqrt_ratio_eval, sqrt_diff_eval]
  norm_num [cval]

/-- Backward leg: relativistic velocity → wavelength.  The increment does
not round-trip: it comes back as 1/4 instead of 1. -/
theorem eval_velo_to_wave :
    convert_spectral_axis wcsVeloEx .m "WAVE".data none = Except.ok wcsWaveBack := by
  rw [convert_wrapper_notspeed (by simp [wcsVeloEx, parse_phys_type])]
  rw [convert_core_eval wcsVeloEx_resolve wcsVeloEx_main_values rfl (by norm_num)]
  rfl

end EvalWaveVelo

noncomputable section EvalRestOverwrite

/-- Frequency axis carrying a stored rest *wavelength* of 1 m (and no rest
frequency). -/
def wcsRestWavEx : Wcs Unit := ⟨.Hz, "FREQ".data, cval, 1, 0, 1, ()⟩

/-- Result of converting `wcsRestWavEx` to radio velocity while supplying a
rest *frequency*: both rest fields end up set. -/
def wcsRestBothOut : Wcs Unit := ⟨.m_per_s, "VRAD".data, 0, -1, cval, 1, ()⟩

theorem wcsRestWavEx_resolve : resolveRest wcsRestWavEx .m_per_s (some ⟨cval, .Hz⟩) =
    Except.ok (some ⟨cval, .Hz⟩, some ⟨cval, .Hz⟩) := rfl

theorem wcsRestWavEx_main : core_main wcsRestWavEx .m_per_s "VRAD".data (some ⟨cval, .Hz⟩) =
    Except.ok (⟨dopplerToVelFreq VConv.radio cval cval, .m_per_s⟩,
      ⟨-(1 * cval / cval), .m_per_s⟩) := rfl

theorem wcsRestWavEx_main_values :
    core_main wcsRestWavEx .m_per_s "VRAD".data (some ⟨cval, .Hz⟩) =
      Except.ok (⟨0, .m_per_s⟩, ⟨-1, .m_per_s⟩) := by
  rw [wcsRestWavEx_main]
  simp only [Except.ok.injEq, Prod.mk.injEq, Quantity.mk.injEq, dopplerToVelFreq]
  norm_num [cval]

/-- Evaluation: the conversion succeeds and writes `restfrq` while leaving
the stored nonzero `restwav` in place. -/
theorem eval_freq_to_vrad_overwrite :
    convert_spectral_axis wcsRestWavEx .m_per_s "VRAD".data (some ⟨cval, .Hz⟩) =
      Except.ok wcsRestBothOut := by
  rw [convert_wrapper_notspeed (by simp [wcsRestWavEx, parse_phys_type])]
  rw [convert_core_eval wcsRestWavEx_resolve wcsRestWavEx_main_values rfl (by norm_num)]
  rfl

/-- Speed axis with zero increment and no rest value. -/
def wcsZeroDelta : Wcs Unit := ⟨.m_per_s, "VELO".data, 1, 0, 0, 0, ()⟩

end EvalRestOverwrite

section Claims

/-- C1: for every input enumerated in the spec, the ctype resolver
`determine_ctype_from_vconv` returns exactly the stated output:
('VELO-F2V', frequency) yields 'FREQ'; ('VELO-F2V', length) yields
'WAVE-F2W'; ('FREQ', speed, convention=radio) yields 'VRAD'; ('FREQ',
speed, convention=optical) yields 'VOPT-F2W'; and ('FREQ', speed) with no
convention fails with the missing-convention error. -/
theorem claim1_ctype_resolution :
    determine_ctype_from_vconv "VELO-F2V".data .Hz none = Except.ok "FREQ".data ∧
    determine_ctype_from_vconv "VELO-F2V".data .m none = Except.ok "WAVE-F2W".data ∧
    determine_ctype_from_vconv "FREQ".data .m_per_s (some (.conv .radio)) =
      Except.ok "VRAD".data ∧
    determine_ctype_from_vconv "FREQ".data .m_per_s (some (.conv .optical)) =
      Except.ok "VOPT-F2W".data ∧
    determine_ctype_from_vconv "FREQ".data .m_per_s none =
      Except.error "A velocity convention must be specified" :=
  ⟨rfl, rfl, rfl, rfl, rfl⟩

/-- C2 counterexample: the claim says the physical-type letter used for the
linearly sampled quantity of a composite ctype is the character at position
7; in fact the resolver uses the character at position 5.  For 'VELO-F2V'
the character at position 7 is 'V' but the resolved composite carries 'F'
(the character at position 5) in its from-slot; moreover changing the
character at position 7 does not change the result, while changing the one
at position 5 does. -/
theorem claim2_counterexample :
    determine_ctype_from_vconv "VELO-F2V".data .m none = Except.ok "WAVE-F2W".data ∧
    determine_ctype_from_vconv "VELO-F2W".data .m none = Except.ok "WAVE-F2W".data ∧
    determine_ctype_from_vconv "VELO-V2V".data .m none = Except.ok "WAVE-V2W".data ∧
    "VELO-F2V".data[7]? = some 'V' ∧ "VELO-F2V".data[5]? = some 'F' ∧
    "WAVE-F2W".data[5]? = some 'F' ∧ ('F' : Char) ≠ 'V' :=
  ⟨rfl, rfl, rfl, rfl, rfl, rfl, by decide⟩

/-- C2 (amended): for a composite (longer than 4 characters) current ctype
the physical-type letter used as the linearly sampled quantity is the
character at position 5 (0-based), and the characters at positions 4, 6 and
7 are irrelevant; for a 4-character tag the letter is derived from the
tag's linear unit (e.g. 'VOPT' has linear unit m, giving letter 'W'). -/
theorem claim2_in_physchar_position :
    (∀ a b y : Char,
      determine_ctype_from_vconv ['V', 'E', 'L', 'O', a, 'F', b, y] .m none =
        Except.ok "WAVE-F2W".data) ∧
    determine_ctype_from_vconv "VOPT".data .Hz none = Except.ok "FREQ-W2F".data :=
  ⟨fun _ _ _ => rfl, rfl⟩

/-- C3: converting a speed axis to a speed unit when no rest value is
attached to the WCS returns an identical copy of the input, regardless of
the requested output unit, ctype, and supplied rest value. -/
theorem claim3_speed_speed_noop {α : Type} (w : Wcs α) (outunit : SpecUnit)
    (out_ctype : List Char) (rest_value : Option Quantity)
    (hin : parse_phys_type w.spec_cunit = PhysType.speed)
    (hout : parse_phys_type outunit = PhysType.speed)
    (hf : w.restfrq = 0) (hw : w.restwav = 0) :
    convert_spectral_axis w outunit out_ctype rest_value = Except.ok w := by
  unfold convert_spectral_axis
  rw [if_pos ⟨hin, hout⟩,
    show get_rest_value_from_wcs w = none from by simp [get_rest_value_from_wcs, hf, hw]]

/-- Witness for C3 at a concrete speed axis. -/
theorem claim3_witness :
    convert_spectral_axis (⟨.m_per_s, "VELO".data, 1, 1, 0, 0, ()⟩ : Wcs Unit) .m_per_s
      "VRAD".data none = Except.ok ⟨.m_per_s, "VELO".data, 1, 1, 0, 0, ()⟩ :=
  claim3_speed_speed_noop _ _ _ _ rfl rfl rfl rfl

/-- C4: for every nonzero reference value and every increment, the
increment transform between the pair {length, frequency}, in either
direction, returns −c / reference_value² times the increment, expressed in
the output physical type's unit (Hz resp. m), independently of the rest
value and the linear flag. -/
theorem claim4_cdelt_derivative_length_frequency (crval cdelt : ℝ) (rest : Option Quantity)
    (linear : Bool) (hc : crval ≠ 0) :
    cdelt_derivative ⟨crval, .m⟩ ⟨cdelt, .m⟩ PhysType.length PhysType.frequency rest linear =
      Except.ok ⟨-cval / crval ^ 2 * cdelt, .Hz⟩ ∧
    cdelt_derivative ⟨crval, .Hz⟩ ⟨cdelt, .Hz⟩ PhysType.frequency PhysType.length rest linear =
      Except.ok ⟨-cval / crval ^ 2 * cdelt, .m⟩ :=
  ⟨rfl, rfl⟩

/-- Witness for C4 at reference value 1 and increment 2. -/
theorem claim4_witness :
    (1 : ℝ) ≠ 0 ∧
    cdelt_derivative ⟨1, .m⟩ ⟨2, .m⟩ PhysType.length PhysType.frequency none false =
      Except.ok ⟨-cval / 1 ^ 2 * 2, .Hz⟩ ∧
    cdelt_derivative ⟨1, .Hz⟩ ⟨2, .Hz⟩ PhysType.frequency PhysType.length none false =
      Except.ok ⟨-cval / 1 ^ 2 * 2, .m⟩ :=
  ⟨one_ne_zero, (claim4_cdelt_derivative_length_frequency 1 2 none false one_ne_zero).1,
    (claim4_cdelt_derivative_length_frequency 1 2 none false one_ne_zero).2⟩

/-- C5: the round-trip property fails on the code for the pair
{length, relativistic velocity}.  Starting from a wavelength axis with
reference value 2 m, increment 1 m and rest frequency 299792458 Hz (rest
wavelength 1 m), converting to relativistic velocity (resolver ctype
'VELO-W2V') and back to wavelength reproduces the reference value exactly
but returns increment 1/4 m instead of 1 m — far outside 1e-9 relative
tolerance.  The cause is the nonlinear speed→length branch of
`cdelt_derivative`, whose denominator `(c + crval)·√(c² − crval²)` is the
derivative of the frequency–velocity relation, not of the
wavelength–velocity relation `λ = λ₀·√((c+v)/(c−v))` used for the
reference value. -/
theorem claim5_roundtrip_cdelt_bug :
    determine_ctype_from_vconv "WAVE".data .m_per_s (some (.conv .relativistic)) =
      Except.ok "VELO-W2V".data ∧
    determine_ctype_from_vconv "VELO-W2V".data .m none = Except.ok "WAVE".data ∧
    convert_spectral_axis wcsWaveEx .m_per_s "VELO-W2V".data none = Except.ok wcsVeloEx ∧
    convert_spectral_axis wcsVeloEx .m "WAVE".data none = Except.ok wcsWaveBack ∧
    wcsWaveBack.spec_crval = wcsWaveEx.spec_crval ∧
    wcsWaveEx.spec_cdelt = 1 ∧ wcsWaveBack.spec_cdelt = 1 / 4 ∧
    ¬ |wcsWaveBack.spec_cdelt - wcsWaveEx.spec_cdelt| ≤ 1e-9 * |wcsWaveEx.spec_cdelt| := by
  refine ⟨rfl, rfl, eval_wave_to_velo, eval_velo_to_wave, rfl, rfl, rfl, ?_⟩
  show ¬ |(1 / 4 : ℝ) - 1| ≤ 1e-9 * |(1 : ℝ)|
  rw [show (1 / 4 : ℝ) - 1 = -(3 / 4) from by norm_num, abs_neg, abs_one,
    abs_of_pos (by norm_num : (0 : ℝ) < 3 / 4)]
  norm_num

/-- C6 counterexample: a speed axis with zero increment and no rest value
is returned unchanged by `convert_spectral_axis` (the speed→speed no-op
path), with no zero-increment error, so a zero-increment axis descriptor is
returned. -/
theorem claim6_counterexample :
    convert_spectral_axis wcsZeroDelta .m_per_s "VRAD".data none = Except.ok wcsZeroDelta ∧
    wcsZeroDelta.spec_cdelt = 0 := by
  refine ⟨?_, rfl⟩
  unfold convert_spectral_axis
  rw [show get_rest_value_from_wcs wcsZeroDelta = none from by
    simp [get_rest_value_from_wcs, wcsZeroDelta]]
  rfl

/-- C6 (amended): every successful `convert_spectral_axis` run either goes
through the main conversion path, whose zero-increment check guarantees a
nonzero output increment, or is the speed→speed no-rest no-op, which
returns the input unchanged (including a zero increment). -/
theorem claim6_nonzero_cdelt {α : Type} {w : Wcs α} {outunit : SpecUnit}
    {out_ctype : List Char} {rest_value : Option Quantity} {w' : Wcs α}
    (h : convert_spectral_axis w outunit out_ctype rest_value = Except.ok w') :
    w'.spec_cdelt ≠ 0 ∨
      (w' = w ∧ parse_phys_type w.spec_cunit = PhysType.speed ∧
        parse_phys_type outunit = PhysType.speed ∧ get_rest_value_from_wcs w = none) := by
  unfold convert_spectral_axis at h
  split at h
  · rename_i hsp
    split at h
    · split at h
      · obtain ⟨w2, -, h⟩ := except_bind_ok h
        exact Or.inl (convert_core_ok_cdelt h)
      · cases h
    · rename_i hnone
      cases h
      exact Or.inr ⟨rfl, hsp.1, hsp.2, hnone⟩
  · exact Or.inl (convert_core_ok_cdelt h)

/-- Witness for C6 (amended) at a successful frequency→wavelength
conversion. -/
theorem claim6_witness :
    convert_spectral_axis wcsFreqEx .m "WAVE-F2W".data none = Except.ok wcsWaveOut ∧
    (wcsWaveOut.spec_cdelt ≠ 0 ∨
      (wcsWaveOut = wcsFreqEx ∧ parse_phys_type wcsFreqEx.spec_cunit = PhysType.speed ∧
        parse_phys_type SpecUnit.m = PhysType.speed ∧
        get_rest_value_from_wcs wcsFreqEx = none)) :=
  ⟨eval_freq_to_wave, claim6_nonzero_cdelt eval_freq_to_wave⟩

/-- C7 counterexample: the one-character ctype 'F' has length neither 4 nor
8, yet `determine_vconv_from_ctype` succeeds on it (returning the radio
convention) instead of failing with the invalid-length error. -/
theorem claim7_counterexample :
    determine_vconv_from_ctype "F".data = Except.ok (some VConv.radio) ∧
    "F".data.length ≠ 4 ∧ "F".data.length ≠ 8 :=
  ⟨rfl, by decide, by decide⟩

/-- C7 (amended): `determine_vconv_from_ctype` raises the invalid-length
error exactly for ctypes of length at least 5 other than 8; any ctype of
length at most 4 is parsed directly as a convention token. -/
theorem claim7_invalid_length (ctype : List Char) (h5 : 5 ≤ ctype.length)
    (h8 : ctype.length ≠ 8) :
    determine_vconv_from_ctype ctype =
      Except.error "A valid ctype must either have 4 or 8 characters." := by
  unfold determine_vconv_from_ctype
  rw [if_neg (by omega), if_neg h8]

/-- Witness for C7 (amended) at a length-5 ctype. -/
theorem claim7_witness :
    5 ≤ "ABCDE".data.length ∧ "ABCDE".data.length ≠ 8 ∧
    determine_vconv_from_ctype "ABCDE".data =
      Except.error "A valid ctype must either have 4 or 8 characters." :=
  ⟨by decide, by decide, claim7_invalid_length _ (by decide) (by decide)⟩

/-- C8 counterexample: supplying a rest frequency to a conversion on an
axis that already stores a rest wavelength yields an output WCS with BOTH
rest fields nonzero, violating the claimed at-most-one invariant. -/
theorem claim8_counterexample :
    wcsRestWavEx.restfrq = 0 ∧ wcsRestWavEx.restwav = 1 ∧
    convert_spectral_axis wcsRestWavEx .m_per_s "VRAD".data (some ⟨cval, .Hz⟩) =
      Except.ok wcsRestBothOut ∧
    wcsRestBothOut.restfrq ≠ 0 ∧ wcsRestBothOut.restwav ≠ 0 :=
  ⟨rfl, rfl, eval_freq_to_vrad_overwrite, by norm_num [wcsRestBothOut, cval],
    by norm_num [wcsRestBothOut]⟩

/-- C8 (amended): `convert_spectral_axis` writes only the rest field
matching the committed rest value's physical type and leaves the other rest
field at its input value; consequently the at-most-one invariant is
preserved only when the supplied rest value is not of the other kind than
the one already stored.  Concretely: at least one of the two rest fields is
always unchanged, and an input with zero rest wavelength keeps a zero rest
wavelength whenever no length-typed rest value is supplied. -/
theorem claim8_rest_fields {α : Type} {w : Wcs α} {outunit : SpecUnit}
    {out_ctype : List Char} {rest_value : Option Quantity} {w' : Wcs α}
    (h : convert_spectral_axis w outunit out_ctype rest_value = Except.ok w') :
    (w'.restfrq = w.restfrq ∨ w'.restwav = w.restwav) ∧
    (w.restwav = 0 →
      (∀ rv, rest_value = some rv → parse_phys_type rv.u ≠ PhysType.length) →
      w'.restwav = 0) := by
  unfold convert_spectral_axis at h
  split at h
  · split at h
    · rename_i rv hg
      split at h
      · obtain ⟨w2, hw2, h⟩ := except_bind_ok h
        have hself := convert_core_rest_self hw2 hg
        constructor
        · rcases convert_core_rest_one h with h1 | h1
          · exact Or.inl (h1.trans hself.1)
          · exact Or.inr (h1.trans hself.2)
        · intro h0 halign
          exact convert_core_restwav h (hself.2.trans h0) halign
      · cases h
    · cases h
      exact ⟨Or.inl rfl, fun h0 _ => h0⟩
  · exact ⟨convert_core_rest_one h,
      fun h0 halign => convert_core_restwav h h0 halign⟩

/-- Witness for C8 (amended) at a successful frequency→wavelength
conversion with no supplied rest value. -/
theorem claim8_witness :
    convert_spectral_axis wcsFreqEx .m "WAVE-F2W".data none = Except.ok wcsWaveOut ∧
    (wcsWaveOut.restfrq = wcsFreqEx.restfrq ∨ wcsWaveOut.restwav = wcsFreqEx.restwav) ∧
    (wcsFreqEx.restwav = 0 →
      (∀ rv, (none : Option Quantity) = some rv → parse_phys_type rv.u ≠ PhysType.length) →
      wcsWaveOut.restwav = 0) :=
  ⟨eval_freq_to_wave, (claim8_rest_fields eval_freq_to_wave).1,
    (claim8_rest_fields eval_freq_to_wave).2⟩

/-- C9: `convert_spectral_axis` only updates the spectral axis fields
(increment, unit, reference value, ctype) and the rest value fields of its
(deep-copied) result; the component standing for all other axes and
metadata is unchanged.  (The input itself is never modified: the embedding
is a pure function returning a new value.) -/
theorem claim9_preserves_other {α : Type} {w : Wcs α} {outunit : SpecUnit}
    {out_ctype : List Char} {rest_value : Option Quantity} {w' : Wcs α}
    (h : convert_spectral_axis w outunit out_ctype rest_value = Except.ok w') :
    w'.other = w.other := by
  unfold convert_spectral_axis at h
  split at h
  · split at h
    · split at h
      · obtain ⟨w2, hw2, h⟩ := except_bind_ok h
        exact (convert_core_ok_other h).trans (convert_core_ok_other hw2)
      · cases h
    · cases h
      rfl
  · exact convert_core_ok_other h

/-- Witness for C9 at a successful frequency→wavelength conversion. -/
theorem claim9_witness :
    convert_spectral_axis wcsFreqEx .m "WAVE-F2W".data none = Except.ok wcsWaveOut ∧
    wcsWaveOut.other = wcsFreqEx.other :=
  ⟨eval_freq_to_wave, claim9_preserves_other eval_freq_to_wave⟩

/-- C10: a stored rest frequency equal to exactly 0 is treated as absent by
`get_rest_value_from_wcs`: it falls through to the rest wavelength, and
when both stored fields are 0 the rest value is absent; consequently a
wavelength/frequency→speed conversion on such a WCS with no explicitly
supplied rest value fails with the missing-rest-value error instead of
using the zero rest frequency. -/
theorem claim10_zero_rest_absent {α : Type} (w w2 : Wcs α) (outunit : SpecUnit)
    (out_ctype : List Char) (hf : w.restfrq = 0) (hw : w.restwav = 0)
    (h2f : w2.restfrq = 0) (h2w : w2.restwav ≠ 0)
    (hosp : parse_phys_type outunit = PhysType.speed)
    (hin : parse_phys_type w.spec_cunit ≠ PhysType.speed) :
    get_rest_value_from_wcs w = none ∧
    get_rest_value_from_wcs w2 = some ⟨w2.restwav, SpecUnit.m⟩ ∧
    convert_spectral_axis w outunit out_ctype none =
      Except.error
        "If converting from wavelength/frequency to speed, a reference wavelength/frequency is required." := by
  have hg : get_rest_value_from_wcs w = none := by simp [get_rest_value_from_wcs, hf, hw]
  refine ⟨hg, by simp [get_rest_value_from_wcs, h2f, h2w], ?_⟩
  rw [convert_wrapper_notspeed (fun hand => hin hand.1)]
  have hrr : resolveRest w outunit none =
      Except.error
        "If converting from wavelength/frequency to speed, a reference wavelength/frequency is required." := by
    unfold resolveRest
    rw [if_pos hosp, hg]
    rfl
  unfold convert_core
  rw [hrr]
  rfl

/-- Witness for C10: a frequency axis with both stored rest fields zero,
and a second WCS whose rest frequency is zero but rest wavelength is 1. -/
theorem claim10_witness :
    get_rest_value_from_wcs wcsFreqEx = none ∧
    get_rest_value_from_wcs (⟨.Hz, "FREQ".data, cval, 1, 0, 1, ()⟩ : Wcs Unit) =
      some ⟨(⟨.Hz, "FREQ".data, cval, 1, 0, 1, ()⟩ : Wcs Unit).restwav, SpecUnit.m⟩ ∧
    convert_spectral_axis wcsFreqEx .m_per_s "VRAD".data none =
      Except.error
        "If converting from wavelength/frequency to speed, a reference wavelength/frequency is required." :=
  claim10_zero_rest_absent wcsFreqEx _ .m_per_s "VRAD".data rfl rfl rfl one_ne_zero rfl
    (by decide)

end Claims
